import Mathlib

/-!
The program `assignments/ps4/my-node-app/index.js`.

A shallow embedding of the fifteen-line Express program:

```
 3  const app = express();
 5  app.get('/',async(req,res)=>{
 6      const response = await fetch("https://www.google.ca/");
 7      let data = response.json();
 8      console.log(data);
 9      res.send("hello");
12  })
14  app.listen(3000);
15  console.log('Started server on port 3000');
```

The handler is written in a small effect monad whose primitives are the
runtime calls the source makes (`fetch`, `await`, `response.json()`,
`console.log`, `res.send`).  The answer of the network, the outcome of binding
the port, and the parts of node and Express the source does not fix are inputs
of the model.
-/

namespace MyNodeApp

/-! ## Data -/

/-- HTTP request methods. -/
inductive Method
  | GET | HEAD | POST | PUT | DELETE | CONNECT | OPTIONS | TRACE | PATCH
deriving DecidableEq, Repr

/-- An incoming request: its method, the path name of its URL, and the rest
(headers and body), which the program never reads. -/
structure Request where
  method : Method
  path : String
  headers : List (String × String)
  body : String
deriving DecidableEq, Repr

/-- The value a successful JSON parse yields, kept as its canonical text. -/
structure Payload where
  text : String
deriving DecidableEq, Repr

/-- The body of an upstream response: either it parses as JSON, to the given
payload, or it does not. -/
inductive Body
  | json (payload : Payload)
  | malformed (raw : String)
deriving DecidableEq, Repr

/-- The upstream response `fetch` resolves with. -/
structure Response where
  status : Nat
  body : Body
deriving DecidableEq, Repr

/-- How a promise eventually settles. -/
inductive Settled (α : Type)
  | fulfilled (value : α)
  | rejected (reason : String)
deriving DecidableEq, Repr

/-- The state of a promise of a payload at one moment. -/
inductive PromiseState
  | pending
  | fulfilled (value : Payload)
  | rejected (reason : String)
deriving DecidableEq, Repr

/-- What `console.log` is given, as seen at the moment of the call. -/
inductive Logged
  | text (s : String)
  | payload (p : Payload)
  | promise (state : PromiseState)
deriving DecidableEq, Repr

/-- The line `console.log` writes for a logged value. -/
def Logged.render : Logged → String
  | .text s => s
  | .payload p => p.text
  | .promise .pending => "Promise \x7b <pending> \x7d"
  | .promise (.fulfilled v) => "Promise \x7b " ++ v.text ++ " \x7d"
  | .promise (.rejected r) => "Promise \x7b <rejected> " ++ r ++ " \x7d"

/-- The observable effects of the handler, in the order they happen. -/
inductive Effect
  | fetch (url : String) (method : Method)
  | json
  | log (value : Logged)
  | send (status : Nat) (body : String)
deriving DecidableEq, Repr

/-- The bookkeeping of one promise created while the handler runs. -/
structure PromiseRec where
  id : Nat
  rejects : Option String
  settled : Bool
  handled : Bool
deriving DecidableEq, Repr

/-- A promise value: its identity and the way it will settle. -/
structure Promise (α : Type) where
  id : Nat
  outcome : Settled α

/-- The state one handler invocation works on: the effects so far, the promises
created so far, and the status code of the response object (`res.statusCode`,
200 until set otherwise). -/
structure World where
  trace : List Effect
  promises : List PromiseRec
  statusCode : Nat
deriving DecidableEq, Repr

/-- The world at the start of a handler invocation. -/
def World.init : World := { trace := [], promises := [], statusCode := 200 }

/-! ## The effect monad -/

/-- A computation of an `async` function body: it updates the world and either
yields a value or throws. -/
def Async (α : Type) : Type := World → Except String α × World

/-- Return a value without touching the world. -/
def Async.pure {α : Type} (a : α) : Async α := fun w => (.ok a, w)

/-- Sequence two computations; an exception of the first skips the second. -/
def Async.bind {α β : Type} (m : Async α) (f : α → Async β) : Async β := fun w =>
  match m w with
  | (.ok a, w1) => f a w1
  | (.error e, w1) => (.error e, w1)

instance : Monad Async where
  pure := Async.pure
  bind := Async.bind

/-- Append one effect to the trace. -/
def emit (e : Effect) : Async Unit := fun w =>
  (.ok (), { w with trace := w.trace ++ [e] })

/-- The rejection reason of an outcome, if it is a rejection. -/
def Settled.reason? {α : Type} : Settled α → Option String
  | .fulfilled _ => none
  | .rejected r => some r

/-- Create a promise that will settle as given; it starts pending, with no
reaction attached. -/
def newPromise {α : Type} (outcome : Settled α) : Async (Promise α) := fun w =>
  (.ok { id := w.promises.length, outcome := outcome },
   { w with promises := w.promises ++
      [{ id := w.promises.length, rejects := outcome.reason?, settled := false, handled := false }] })

/-- The global `fetch(url)`: one outbound request, method GET since no options
are passed; `net` is how the network answers it. -/
def fetch (net : Settled Response) (url : String) : Async (Promise Response) := do
  emit (.fetch url .GET)
  newPromise net

/-- The operator `await p`: the function is suspended until `p` has settled; it
resumes with the value, or throws the rejection reason. -/
def await {α : Type} (p : Promise α) : Async α := fun w =>
  let w1 := { w with promises := w.promises.map fun r =>
    if r.id = p.id then { r with settled := true, handled := true } else r }
  match p.outcome with
  | .fulfilled v => (.ok v, w1)
  | .rejected e => (.error e, w1)

/-- The method `response.json()`: starts reading the body and returns a promise
of the parsed payload, which rejects when the body does not parse. -/
def Response.json (r : Response) : Async (Promise Payload) := do
  emit .json
  newPromise (match r.body with
    | .json p => .fulfilled p
    | .malformed _ => .rejected "SyntaxError")

/-- The state of a promise as the world has it now. -/
def World.stateOf (w : World) (p : Promise Payload) : PromiseState :=
  match w.promises.find? (fun r => r.id = p.id) with
  | some r =>
    if r.settled then
      match p.outcome with
      | .fulfilled v => .fulfilled v
      | .rejected e => .rejected e
    else .pending
  | none => .pending

/-- The call `console.log(p)` for a promise `p`: logs the promise as it is at
the moment of the call. -/
def consoleLog (p : Promise Payload) : Async Unit := fun w =>
  (.ok (), { w with trace := w.trace ++ [.log (.promise (w.stateOf p))] })

/-- The call `res.send(body)`, as a record of the call: its argument and the
status code of the response object at the call.  What the call puts on the
wire also depends on the request and is computed by `onWire`. -/
def resSend (body : String) : Async Unit := fun w =>
  (.ok (), { w with trace := w.trace ++ [.send w.statusCode body] })

/-! ## The handler (lines 5-12) -/

/-- The URL the handler fetches (line 6). -/
def upstreamUrl : String := "https://www.google.ca/"

/-- The handler registered for GET "/" (lines 5-12). -/
def handler (net : Settled Response) (_req : Request) : Async Unit := do
  let response ← await (← fetch net upstreamUrl)
  let data ← response.json
  consoleLog data
  resSend "hello"

/-- What one invocation of the handler leaves behind. -/
structure Run where
  trace : List Effect
  returned : Settled Unit
  unhandled : List String
deriving DecidableEq, Repr

/-- Invoke the handler on a fresh world and let every promise it created
settle: `returned` is the state of the promise the async function returns,
`unhandled` the reasons of the promises it created that reject with no reaction
attached. -/
def invoke (net : Settled Response) (req : Request) : Run :=
  match handler net req World.init with
  | (r, w) =>
    { trace := w.trace
      returned := match r with
        | .ok _ => .fulfilled ()
        | .error e => .rejected e
      unhandled := w.promises.filterMap fun p => if p.handled then none else p.rejects }

/-- The calls of `res.send` in a trace, in order: status code at the call and
argument. -/
def sends : List Effect → List (Nat × String)
  | [] => []
  | .send s b :: t => (s, b) :: sends t
  | _ :: t => sends t

/-- The values logged in a trace, in order. -/
def logs : List Effect → List Logged
  | [] => []
  | .log v :: t => v :: logs t
  | _ :: t => logs t

/-- The outbound requests of a trace, in order. -/
def fetches : List Effect → List (String × Method)
  | [] => []
  | .fetch u m :: t => (u, m) :: fetches t
  | _ :: t => fetches t

/-! ## The application (lines 3-5) -/

/-- The major versions of Express the program can be installed with; the
source pins none, and the two match path names differently. -/
inductive Express
  | v4
  | v5
deriving DecidableEq, Repr

/-- The parts of the platform under the program that its source does not fix:
the version of Express, the comparison Express makes between the cache
validators of a request and the entity tag it computes for the body
(`validators`, consulted only when the request carries a validator), and
node's test whether the value of an `Expect` header asks for 100-continue
(`continues`). -/
structure Platform where
  express : Express
  validators : List (String × String) → Bool
  continues : String → Bool

/-- A header name in lower case. -/
def lower (s : String) : String := String.mk (s.data.map Char.toLower)

/-- The value of a request header, the name compared without regard to
case. -/
def Request.header (req : Request) (name : String) : Option String :=
  (req.headers.find? fun h => decide (lower h.1 = name)).map Prod.snd

/-- Whether a header value counts as present: it is there and not empty. -/
def present : Option String → Bool
  | some v => !decide (v = "")
  | none => false

/-- Whether the request carries a cache validator, `If-None-Match` or
`If-Modified-Since`. -/
def Request.hasValidator (req : Request) : Bool :=
  present (req.header "if-none-match") || present (req.header "if-modified-since")

/-- What node's http server does with a request before the application sees
it. -/
inductive Intake
  | toApp
  | closed
  | answered (status : Nat)
deriving DecidableEq, Repr

/-- The intake of node's http server for this program, which registers no
listener besides the application: a CONNECT request has its socket closed
without a response; a request whose `Expect` header does not ask for
100-continue is answered 417; every other request is handed to the
application. -/
def intake (pf : Platform) (req : Request) : Intake :=
  if req.method = .CONNECT then .closed
  else
    match req.header "expect" with
    | none => .toApp
    | some e => if pf.continues e then .toApp else .answered 417

/-- Express's `req.fresh` at a response status code: only GET and HEAD
requests, only for a status 2xx or 304, only when the request carries a
validator, and then when the validators match. -/
def reqFresh (pf : Platform) (req : Request) (statusCode : Nat) : Bool :=
  (decide (req.method = .GET) || decide (req.method = .HEAD)) &&
  ((decide (200 ≤ statusCode) && decide (statusCode < 300)) || decide (statusCode = 304)) &&
  req.hasValidator && pf.validators req.headers

/-- What a call `res.send(body)` made at status code `call.1` puts on the
wire: a fresh conditional request turns the status into 304; a status 204 or
304 carries no body; a HEAD request gets no body. -/
def onWire (pf : Platform) (req : Request) (call : Nat × String) : Nat × String :=
  let status := if reqFresh pf req call.1 then 304 else call.1
  let body := if status = 204 ∨ status = 304 then "" else call.2
  (status, if req.method = .HEAD then "" else body)

/-- A route of the application: the method it was registered for and its path
pattern. -/
structure Route where
  method : Method
  path : String
deriving DecidableEq, Repr

/-- The routing table of `app`: the single call `app.get('/', ...)` (line 5). -/
def routes : List Route := [{ method := .GET, path := "/" }]

/-- Whether a route answers a request method.  Express calls a route
registered with `app.get` for HEAD requests as well, when the route has no
handler for HEAD of its own. -/
def Route.handlesMethod (r : Route) (m : Method) : Bool :=
  decide (r.method = m) || (decide (m = .HEAD) && decide (r.method = .GET))

/-- Whether a route's path pattern matches the path name of a request.  A
pattern without parameters or wildcards matches the path name equal to it.
Routing is not strict about a trailing slash, and for the pattern "/" the two
versions differ in what that admits: Express 4 makes the slash itself
optional and also matches the empty path name, Express 5 allows one more
slash and also matches "//". -/
def Route.matchesPath (v : Express) (r : Route) (path : String) : Bool :=
  decide (path = r.path) ||
    (decide (r.path = "/") &&
      match v with
      | .v4 => decide (path = "")
      | .v5 => decide (path = "//"))

/-- The methods a route lists in an `Allow` header. -/
def Route.allowed (r : Route) : List Method :=
  if r.method = .GET then [.GET, .HEAD] else [r.method]

/-- How the server answers a request: the socket is closed, node answers by
itself, the handler runs (with what goes on the wire, if the handler sent
anything), the router answers an OPTIONS request, or nothing matches. -/
inductive Served
  | closed
  | byNode (status : Nat)
  | byHandler (run : Run) (response : Option (Nat × String))
  | options (allow : List Method)
  | notFound
deriving DecidableEq, Repr

/-- Serving one request.  Node's intake comes first.  Of the requests handed
to the application, the first route matching path and method runs its
handler; an OPTIONS request for a path some route matches is answered by the
router itself with the allowed methods; anything else falls through to the
not-found response. -/
def dispatch (pf : Platform) (net : Settled Response) (req : Request) : Served :=
  match intake pf req with
  | .closed => .closed
  | .answered status => .byNode status
  | .toApp =>
    match routes.find? (fun r =>
        r.matchesPath pf.express req.path && r.handlesMethod req.method) with
    | some _ =>
      .byHandler (invoke net req) ((sends (invoke net req).trace).head?.map (onWire pf req))
    | none =>
      if req.method = .OPTIONS ∧
          (routes.any fun r => r.matchesPath pf.express req.path) = true then
        .options ((routes.filter fun r => r.matchesPath pf.express req.path).flatMap
          Route.allowed)
      else .notFound

/-- Whether serving the request ran the handler of GET "/". -/
def Served.handlerInvoked : Served → Bool
  | .byHandler _ _ => true
  | _ => false

/-- The response on the wire, when there is one and the model determines it:
none when the socket was closed or the handler sent nothing. -/
def Served.response : Served → Option (Nat × String)
  | .byHandler _ response => response
  | _ => none

/-- The status of the response: node's own, the one on the wire after the
handler ran (none when the handler sent nothing), 200 for the router's OPTIONS
answer, 404 when nothing matched, none when the socket was closed. -/
def Served.status : Served → Option Nat
  | .closed => none
  | .byNode status => some status
  | .byHandler _ response => response.map Prod.fst
  | .options _ => some 200
  | .notFound => some 404

/-! ## Startup (lines 14-15) -/

/-- The outcome of binding a port: bound, or failed with an error code such as
EADDRINUSE or EACCES. -/
inductive BindResult
  | bound
  | failed (code : String)
deriving DecidableEq, Repr

/-- The process as seen from outside: the ports `listen` was called with, the
lines written to standard output and standard error, the port a listener is
accepting on, and the exit status once the process has ended. -/
structure Process where
  listenCalls : List Nat
  stdout : List String
  stderr : List String
  listening : Option Nat
  exitCode : Option Nat
deriving DecidableEq, Repr

/-- The process before the script runs. -/
def Process.init : Process :=
  { listenCalls := [], stdout := [], stderr := [], listening := none, exitCode := none }

/-- The call `app.listen(port)`: asks for the port to be bound and returns at
once; the outcome of the bind arrives as an event after the script has run. -/
def appListen (port : Nat) (p : Process) : Process :=
  { p with listenCalls := p.listenCalls ++ [port] }

/-- The top-level `console.log(line)`: one line on standard output. -/
def consoleLogLine (line : String) (p : Process) : Process :=
  { p with stdout := p.stdout ++ [line] }

/-- The top-level statements of the script, in order (lines 14 and 15). -/
def script (p : Process) : Process :=
  consoleLogLine "Started server on port 3000" (appListen 3000 p)

/-- The event loop after the script: the bind outcome is delivered.  On success
the listener accepts connections.  On failure the server emits an error event;
the program registers no listener for it, so it is thrown, uncaught, and the
runtime writes the error to standard error and ends the process with status
1. -/
def deliver (bind : Nat → BindResult) (p : Process) : Process :=
  match p.listenCalls with
  | [] => { p with exitCode := some 0 }
  | port :: _ =>
    match bind port with
    | .bound => { p with listening := some port }
    | .failed code =>
      { p with stderr := p.stderr ++ ["Error: listen " ++ code], exitCode := some 1 }

/-- Start the program: run the script, then deliver the bind outcome. -/
def start (bind : Nat → BindResult) : Process :=
  deliver bind (script Process.init)

/-! ## Helper facts about the handler -/

/-- The trace of the handler when the fetch resolves: the four calls of lines
6 to 9, whatever the request and the upstream response. -/
theorem invoke_fulfilled_trace (r : Response) (req : Request) :
    (invoke (.fulfilled r) req).trace =
      [.fetch upstreamUrl .GET, .json, .log (.promise .pending), .send 200 "hello"] := rfl

/-- The trace of the handler when the fetch rejects: the fetch alone. -/
theorem invoke_rejected_trace (e : String) (req : Request) :
    (invoke (.rejected e) req).trace = [.fetch upstreamUrl .GET] := rfl

/-! ## The claims -/

/-- C1, as stated, fails: when the fetch rejects with a network error the
handler of a GET "/" request sends no response at all, so in particular not
200 "hello". -/
theorem C1_no_response_when_fetch_rejects :
    sends (invoke (.rejected "ECONNREFUSED")
      { method := .GET, path := "/", headers := [], body := "" }).trace = [] := rfl

/-- C1, amended: for every GET request for "/" that node hands to the
application and that carries no cache validator, on either version of Express,
and every upstream response the fetch resolves with (any status, any body,
parseable or not), the handler runs and the response has status 200 and body
"hello"; when the fetch rejects, the handler makes no call of `res.send`. -/
theorem C1_sends_hello_when_fetch_resolves (pf : Platform) (req : Request)
    (hm : req.method = .GET) (hp : req.path = "/")
    (hi : intake pf req = .toApp) (hv : req.hasValidator = false) :
    (∀ r : Response,
      (dispatch pf (.fulfilled r) req).handlerInvoked = true ∧
      (dispatch pf (.fulfilled r) req).response = some (200, "hello") ∧
      (dispatch pf (.fulfilled r) req).status = some 200) ∧
    (∀ e : String, sends (invoke (.rejected e) req).trace = []) := by
  refine ⟨fun r => ?_, fun _ => rfl⟩
  have hd : dispatch pf (.fulfilled r) req =
      .byHandler (invoke (.fulfilled r) req) (some (200, "hello")) := by
    have hs : sends (invoke (.fulfilled r) req).trace = [(200, "hello")] := rfl
    simp [dispatch, hi, routes, Route.matchesPath, Route.handlesMethod, hm, hp, hs, onWire,
      reqFresh, hv]
  rw [hd]
  exact ⟨rfl, rfl, rfl⟩

/-- C1, amended, at a plain GET request for "/" under Express 5, the upstream
answering 503 with a body that does not parse. -/
theorem C1_sends_hello_when_fetch_resolves_witness :
    (∀ r : Response,
      (dispatch { express := .v5, validators := fun _ => true, continues := fun _ => false }
        (.fulfilled r)
        { method := .GET, path := "/", headers := [("Accept", "text/html")], body := "" }
        ).handlerInvoked = true ∧
      (dispatch { express := .v5, validators := fun _ => true, continues := fun _ => false }
        (.fulfilled r)
        { method := .GET, path := "/", headers := [("Accept", "text/html")], body := "" }
        ).response = some (200, "hello") ∧
      (dispatch { express := .v5, validators := fun _ => true, continues := fun _ => false }
        (.fulfilled r)
        { method := .GET, path := "/", headers := [("Accept", "text/html")], body := "" }
        ).status = some 200) ∧
    (∀ e : String, sends (invoke (.rejected e)
        { method := .GET, path := "/", headers := [("Accept", "text/html")], body := "" }
        ).trace = []) :=
  C1_sends_hello_when_fetch_resolves
    { express := .v5, validators := fun _ => true, continues := fun _ => false }
    { method := .GET, path := "/", headers := [("Accept", "text/html")], body := "" }
    rfl rfl (by decide) (by decide)

/-- C2, as stated, fails: a HEAD request for "/" is not (GET, "/"), yet the
route registered by `app.get` matches it, the handler runs, and the status is
200 instead of 404. -/
theorem C2_head_request_runs_handler :
    (dispatch { express := .v4, validators := fun _ => false, continues := fun _ => false }
        (.fulfilled { status := 200, body := .json { text := "[]" } })
        { method := .HEAD, path := "/", headers := [], body := "" }).handlerInvoked = true ∧
    (dispatch { express := .v4, validators := fun _ => false, continues := fun _ => false }
        (.fulfilled { status := 200, body := .json { text := "[]" } })
        { method := .HEAD, path := "/", headers := [], body := "" }).status = some 200 := by
  decide

/-- C2, amended: for every request that node hands to the application, on
either version of Express, whose path name is none of "/", "//" and the empty
one, or whose method is none of GET, HEAD and OPTIONS, no route matches: the
handler is not invoked and the response status is 404. -/
theorem C2_unmatched_request_not_found (pf : Platform) (net : Settled Response)
    (req : Request) (hi : intake pf req = .toApp)
    (h : (req.path ≠ "" ∧ req.path ≠ "/" ∧ req.path ≠ "//") ∨
      (req.method ≠ .GET ∧ req.method ≠ .HEAD ∧ req.method ≠ .OPTIONS)) :
    dispatch pf net req = .notFound ∧
    (dispatch pf net req).handlerInvoked = false ∧
    (dispatch pf net req).status = some 404 := by
  have hnf : dispatch pf net req = .notFound := by
    obtain ⟨v, vs, cs⟩ := pf
    obtain ⟨m, p, hs, b⟩ := req
    rcases h with ⟨h0, h1, h2⟩ | ⟨h1, h2, h3⟩
    · simp only at h0 h1 h2
      cases v <;>
        simp [dispatch, hi, routes, Route.matchesPath, Route.handlesMethod, h0, h1, h2]
    · simp only at h1 h2 h3
      cases m <;> first | exact absurd rfl h1 | exact absurd rfl h2 | exact absurd rfl h3 |
        simp [dispatch, hi, routes, Route.matchesPath, Route.handlesMethod]
  rw [hnf]
  exact ⟨rfl, rfl, rfl⟩

/-- C2, amended, at a POST request for "/" under Express 4 and at a GET
request for "/about" under Express 5. -/
theorem C2_unmatched_request_not_found_witness :
    (dispatch { express := .v4, validators := fun _ => false, continues := fun _ => false }
        (.rejected "ECONNREFUSED")
        { method := .POST, path := "/", headers := [], body := "" } = .notFound ∧
      (dispatch { express := .v4, validators := fun _ => false, continues := fun _ => false }
        (.rejected "ECONNREFUSED")
        { method := .POST, path := "/", headers := [], body := "" }).handlerInvoked = false ∧
      (dispatch { express := .v4, validators := fun _ => false, continues := fun _ => false }
        (.rejected "ECONNREFUSED")
        { method := .POST, path := "/", headers := [], body := "" }).status = some 404) ∧
    (dispatch { express := .v5, validators := fun _ => true, continues := fun _ => true }
        (.fulfilled { status := 200, body := .json { text := "[]" } })
        { method := .GET, path := "/about", headers := [("Host", "localhost:3000")],
          body := "" } = .notFound ∧
      (dispatch { express := .v5, validators := fun _ => true, continues := fun _ => true }
        (.fulfilled { status := 200, body := .json { text := "[]" } })
        { method := .GET, path := "/about", headers := [("Host", "localhost:3000")],
          body := "" }).handlerInvoked = false ∧
      (dispatch { express := .v5, validators := fun _ => true, continues := fun _ => true }
        (.fulfilled { status := 200, body := .json { text := "[]" } })
        { method := .GET, path := "/about", headers := [("Host", "localhost:3000")],
          body := "" }).status = some 404) :=
  ⟨C2_unmatched_request_not_found
      { express := .v4, validators := fun _ => false, continues := fun _ => false }
      (.rejected "ECONNREFUSED")
      { method := .POST, path := "/", headers := [], body := "" }
      (by decide) (Or.inr ⟨by decide, by decide, by decide⟩),
    C2_unmatched_request_not_found
      { express := .v5, validators := fun _ => true, continues := fun _ => true }
      (.fulfilled { status := 200, body := .json { text := "[]" } })
      { method := .GET, path := "/about", headers := [("Host", "localhost:3000")], body := "" }
      (by decide) (Or.inl ⟨by decide, by decide, by decide⟩)⟩

/-- C3, as stated, fails: when the fetch rejects nothing in the handler catches
the error and the promise the handler returns rejects with it; and when the
body does not parse, the promise made by `response.json()` rejects with no
reaction attached. -/
theorem C3_errors_escape_the_handler :
    (invoke (.rejected "ECONNREFUSED")
      { method := .GET, path := "/", headers := [], body := "" }).returned
        = .rejected "ECONNREFUSED" ∧
    (invoke (.fulfilled { status := 200, body := .malformed "<html>" })
      { method := .GET, path := "/", headers := [], body := "" }).unhandled
        = ["SyntaxError"] :=
  ⟨rfl, rfl⟩

/-- C3, amended: the promise the handler returns fulfils whenever the fetch
resolves and rejects with the fetch error whenever the fetch rejects; when the
fetch resolves with a body that parses, no promise the handler created is left
rejected. -/
theorem C3_returned_promise_follows_fetch (req : Request) :
    (∀ r : Response, (invoke (.fulfilled r) req).returned = .fulfilled ()) ∧
    (∀ e : String, (invoke (.rejected e) req).returned = .rejected e) ∧
    (∀ (status : Nat) (p : Payload),
      (invoke (.fulfilled { status := status, body := .json p }) req).unhandled = []) :=
  ⟨fun _ => rfl, fun _ => rfl, fun _ _ => rfl⟩

/-- C4, as stated, fails: a run whose fetch rejects emits no log entry, and a
run whose upstream answers 500 with a body that does not parse writes the same
log line as a run whose upstream answers 200 with JSON. -/
theorem C4_failure_has_no_log_of_its_own :
    logs (invoke (.rejected "ECONNREFUSED")
      { method := .GET, path := "/", headers := [], body := "" }).trace = [] ∧
    (logs (invoke (.fulfilled { status := 500, body := .malformed "<html>" })
      { method := .GET, path := "/", headers := [], body := "" }).trace).map Logged.render
      = (logs (invoke (.fulfilled { status := 200, body := .json { text := "[]" } })
      { method := .GET, path := "/", headers := [], body := "" }).trace).map Logged.render :=
  ⟨rfl, rfl⟩

/-- C4, amended: an invocation whose fetch rejects emits no log entry, and an
invocation whose fetch resolves, with whatever status and body, emits exactly
one. -/
theorem C4_log_entries_by_fetch_outcome (req : Request) :
    (∀ e : String, logs (invoke (.rejected e) req).trace = []) ∧
    (∀ r : Response, (logs (invoke (.fulfilled r) req).trace).length = 1) :=
  ⟨fun _ => rfl, fun _ => rfl⟩

/-- C5, as stated, fails: on the path where the fetch rejects the number of
`res.send` calls is 0. -/
theorem C5_no_send_when_fetch_rejects :
    (sends (invoke (.rejected "ECONNREFUSED")
      { method := .GET, path := "/", headers := [], body := "" }).trace).length = 0 := rfl

/-- C5, amended: along every execution path the handler calls `res.send` at
most once: exactly once when the fetch resolves, not at all when it
rejects. -/
theorem C5_send_count (net : Settled Response) (req : Request) :
    (sends (invoke net req).trace).length ≤ 1 ∧
    (sends (invoke net req).trace).length =
      (match net with
        | .fulfilled _ => 1
        | .rejected _ => 0) := by
  cases net with
  | fulfilled r => exact ⟨Nat.le_refl 1, rfl⟩
  | rejected e => exact ⟨Nat.zero_le 1, rfl⟩

/-- C6 at an upstream response with the JSON body [1,2,3]: what the handler
logs is the promise of the parse, still pending, and not the parsed payload. -/
theorem C6_logs_pending_promise :
    logs (invoke (.fulfilled { status := 200, body := .json { text := "[1,2,3]" } })
      { method := .GET, path := "/", headers := [], body := "" }).trace
        = [.promise .pending] ∧
    logs (invoke (.fulfilled { status := 200, body := .json { text := "[1,2,3]" } })
      { method := .GET, path := "/", headers := [], body := "" }).trace
        ≠ [.payload { text := "[1,2,3]" }] :=
  ⟨rfl, by decide⟩

/-- C7, as stated, fails: when binding port 3000 fails because the port is in
use, the program has still written the line saying the server started. -/
theorem C7_started_line_despite_bind_failure :
    "Started server on port 3000" ∈ (start fun _ => .failed "EADDRINUSE").stdout := by
  decide

/-- C7, amended: if binding port 3000 fails, the program ends with exit status
1, the bind error is written to standard error, no listener is left running,
and standard output holds the line 'Started server on port 3000', written
before the bind outcome was known. -/
theorem C7_bind_failure (bind : Nat → BindResult) (code : String)
    (h : bind 3000 = .failed code) :
    (start bind).exitCode = some 1 ∧
    (start bind).stderr = ["Error: listen " ++ code] ∧
    (start bind).listening = none ∧
    (start bind).stdout = ["Started server on port 3000"] := by
  simp [start, deliver, script, consoleLogLine, appListen, Process.init, h]

/-- C7, amended, at a port that is already in use. -/
theorem C7_bind_failure_witness :
    (start fun _ => .failed "EADDRINUSE").exitCode = some 1 ∧
    (start fun _ => .failed "EADDRINUSE").stderr = ["Error: listen " ++ "EADDRINUSE"] ∧
    (start fun _ => .failed "EADDRINUSE").listening = none ∧
    (start fun _ => .failed "EADDRINUSE").stdout = ["Started server on port 3000"] :=
  C7_bind_failure (fun _ => .failed "EADDRINUSE") "EADDRINUSE" rfl

/-- C8, as stated, fails: an invocation whose fetch rejects makes no log
emission, not exactly one. -/
theorem C8_no_log_when_fetch_rejects :
    (logs (invoke (.rejected "ENOTFOUND")
      { method := .GET, path := "/", headers := [("accept", "text/html")],
        body := "" }).trace).length ≠ 1 := by
  decide

/-- C8, amended: every invocation, whatever the request contains and however
the fetch settles, issues exactly one outbound call, a GET to
"https://www.google.ca/"; it makes exactly one log emission when the fetch
resolves and none when it rejects. -/
theorem C8_one_outbound_call (net : Settled Response) (req : Request) :
    fetches (invoke net req).trace = [("https://www.google.ca/", .GET)] ∧
    (logs (invoke net req).trace).length =
      (match net with
        | .fulfilled _ => 1
        | .rejected _ => 0) := by
  cases net with
  | fulfilled r => exact ⟨rfl, rfl⟩
  | rejected e => exact ⟨rfl, rfl⟩

/-- C9: whatever the outcome of the bind, starting the program writes exactly
one line to standard output, and the port that line names is the port passed
to `app.listen`, 3000. -/
theorem C9_startup_line_names_listen_port (bind : Nat → BindResult) :
    (start bind).stdout.length = 1 ∧
    (start bind).listenCalls = [3000] ∧
    ∃ port : Nat, (start bind).listenCalls = [port] ∧
      (start bind).stdout = ["Started server on port " ++ toString port] := by
  have hmsg : "Started server on port 3000" = "Started server on port " ++ toString 3000 := by
    decide
  cases h : bind 3000 <;>
    simp [start, deliver, script, consoleLogLine, appListen, Process.init, h, hmsg]

/-- C10: whenever the fetch resolves, with any status and any body, the trace
of the handler is the fetch of "https://www.google.ca/", the call of
`response.json()`, the log of the still pending promise, and the send of
"hello" with status 200, the log coming before the send; the logged value and
the response sent are the same for any two upstream responses. -/
theorem C10_trace_when_fetch_resolves (r1 r2 : Response) (req1 req2 : Request) :
    (invoke (.fulfilled r1) req1).trace =
      [.fetch "https://www.google.ca/" .GET, .json, .log (.promise .pending),
        .send 200 "hello"] ∧
    (invoke (.fulfilled r1) req1).trace.indexOf (.log (.promise .pending)) <
      (invoke (.fulfilled r1) req1).trace.indexOf (.send 200 "hello") ∧
    logs (invoke (.fulfilled r1) req1).trace = logs (invoke (.fulfilled r2) req2).trace ∧
    sends (invoke (.fulfilled r1) req1).trace = sends (invoke (.fulfilled r2) req2).trace := by
  refine ⟨rfl, ?_, rfl, rfl⟩
  rw [invoke_fulfilled_trace]
  decide

end MyNodeApp
